import Mathlib

/-!
Verification of the Amphenol-Borisch-Technologies Zup-Python-Library.

Shallow embedding of the library in Lean 4:
* `src/Zup.py` — class `Zup` (device controller over a shared serial bus);
* `src/OldCode/ABT_ZUp.py` — the multi-device power sequencer.

Modelling conventions:
* Python floats are modelled as rationals (`ℚ`); Python `round` (round half
  to even on the exact value) is `roundHalfEven`.
* Strings manipulated character-wise are modelled as `List Char`; wire
  strings are `String`.
* Serial traffic is modelled as traces: commands passed to the write layer
  are `PyCmd` values, and the write layer produces `Ev` event lists that
  record writes and the `time.sleep` delays (in milliseconds).
* Device responses are supplied by explicit environment parameters, since
  the real ones arrive over the serial port.
-/

attribute [local semireducible] Rat.mul Rat.add Rat.sub Rat.inv Rat.ofScientific
-- Batteries marks the arithmetic on `Rat` irreducible; re-enabling unfolding
-- lets `decide` evaluate the embedded functions on concrete rationals.

namespace ZupLib

/-! ### Decimal digits and padding -/

/-- The ASCII character of a decimal digit. -/
def digitChar (d : ℕ) : Char :=
  match d with
  | 0 => '0' | 1 => '1' | 2 => '2' | 3 => '3' | 4 => '4'
  | 5 => '5' | 6 => '6' | 7 => '7' | 8 => '8' | 9 => '9'
  | _ => '0'

/-- Decimal digits of `n`, most significant first, computed with explicit
fuel so that the definition reduces by kernel computation.  With `fuel ≥ n`
the result is the full digit expansion of `n` (empty for `n = 0`). -/
def digitsAux : ℕ → ℕ → List Char
  | 0, _ => []
  | fuel + 1, n =>
    if n = 0 then [] else digitsAux fuel (n / 10) ++ [digitChar (n % 10)]

/-- Decimal rendering of a natural number, most significant digit first
(the model of Python `str(n)` for a non-negative integer). -/
def digitsOf (n : ℕ) : List Char :=
  if n = 0 then ['0'] else digitsAux n n

/-- Left-pad a character list to width `w` with the character `c`. -/
def leftPadC (c : Char) (w : ℕ) (cs : List Char) : List Char :=
  List.replicate (w - cs.length) c ++ cs

/-- Parse one ASCII digit. -/
def charToDigit (c : Char) : Option ℕ :=
  if 48 ≤ c.toNat ∧ c.toNat ≤ 57 then some (c.toNat - 48) else none

/-- One step of decimal-string parsing: shift the accumulated value and
add the next digit. -/
def parseStep (acc : Option ℕ) (c : Char) : Option ℕ := do
  let a ← acc
  let d ← charToDigit c
  pure (a * 10 + d)

/-- Parse a non-empty all-digit character list as a natural number. -/
def parseNatChars (cs : List Char) : Option ℕ :=
  if cs = [] then none else cs.foldl parseStep (some 0)

/-- Split a character list at the first dot, if any. -/
def splitAtDot : List Char → List Char × Option (List Char)
  | [] => ([], none)
  | c :: rest =>
    if c = '.' then ([], some rest)
    else
      let (a, b) := splitAtDot rest
      (c :: a, b)

/-- Parse a decimal character string (`"36"`, `"03.30"`, …) as a rational.
This is the verification-side model of Python `float(s)` on the strings the
device produces. -/
def parseDecChars (cs : List Char) : Option ℚ :=
  match splitAtDot cs with
  | (as, none) => (parseNatChars as).map (fun n => (n : ℚ))
  | (as, some bs) => do
    let i ← parseNatChars as
    let f ← parseNatChars bs
    pure ((i : ℚ) + (f : ℚ) / 10 ^ bs.length)

/-- Floor of a rational as an integer (the denominator is positive, so
`Int.fdiv` of numerator by denominator is the floor). -/
def qfloor (q : ℚ) : ℤ := Int.fdiv q.num (q.den : ℤ)

/-- Round a rational to the nearest integer, ties to even — the rounding
Python `round` performs. -/
def roundHalfEven (q : ℚ) : ℤ :=
  let f := qfloor q
  let r := q - (f : ℚ)
  if r < 1 / 2 then f
  else if 1 / 2 < r then f + 1
  else if f % 2 = 0 then f else f + 1

/-- The value `round(q, t)` scaled by `10 ^ t` (an integer). -/
def scaledRound (q : ℚ) (t : ℕ) : ℤ := roundHalfEven (q * 10 ^ t)

/-- Characters of the fixed-point rendering of `q` with `t` decimal places
(no width padding yet): model of `'{:.tf}'.format(q)` for `q ≥ 0`. -/
def fixedTfChars (q : ℚ) (t : ℕ) : List Char :=
  let n := (scaledRound q t).toNat
  digitsOf (n / 10 ^ t) ++ '.' :: leftPadC '0' t (digitsOf (n % 10 ^ t))

/-- Model of `'{:w.tf}'.format(q)`: Python pads with spaces on the left up
to width `w` (the source never actually triggers this padding, since every
table width is at most the minimal rendering length). -/
def pyFormatF (w t : ℕ) (q : ℚ) : List Char :=
  leftPadC ' ' w (fixedTfChars q t)

/-- Model of the `Zup.FORMATS` format strings of `src/Zup.py`: the value of
key `'L.T'` is the format `'{:0>w.Tf}'` with `w = L + T + 1`, i.e. render
with `T` decimals and left-pad with zeros to total width `w`.  A format is
represented as the pair `(w, T)`. -/
def fmtApply (wt : ℕ × ℕ) (q : ℚ) : String :=
  String.mk (leftPadC '0' wt.1 (fixedTfChars q wt.2))

/-- The `FORMATS` table of `src/Zup.py` lines 25-32, with each Python
format string `'{:0>w.tf}'` represented by its `(width, trailing)` pair. -/
def FORMATS (key : String) : ℕ × ℕ :=
  if key = "1.2" then (4, 2)
  else if key = "1.3" then (5, 3)
  else if key = "1.4" then (6, 4)
  else if key = "2.1" then (4, 1)
  else if key = "2.2" then (5, 2)
  else if key = "2.3" then (6, 3)
  else if key = "3.1" then (5, 1)
  else if key = "3.2" then (6, 2)
  else (0, 0)

/-- The `_Format` function of `src/OldCode/ABT_ZUp.py` lines 404-409:
format with `'{:L.Tf}'` after `round(valReal, T)`, then prepend `'0'`
while the length is below `L + T + 1`. -/
def pyFormat (valReal : ℚ) (digitsLeading digitsTrailing : ℕ) : List Char :=
  leftPadC '0' (digitsLeading + digitsTrailing + 1)
    (pyFormatF digitsLeading digitsTrailing valReal)

/-- String form of `pyFormat` (`_Format` returns a Python string). -/
def pyFormatS (valReal : ℚ) (digitsLeading digitsTrailing : ℕ) : String :=
  String.mk (pyFormat valReal digitsLeading digitsTrailing)

/-! ### Commands

Every command the library can pass to its serial write layer, one
constructor per wire keyword.  Payloads of the set commands are the
already-formatted argument strings. -/

inductive PyCmd where
  | ADR (s : String)            -- :ADR{s};   address select
  | RMT (n : ℕ)                 -- :RMT{n};   remote mode (0 local, 1 unlatched, 2 latched)
  | DCL                         -- :DCL;      clear registers
  | AST (n : ℕ)                 -- :AST{n};   autostart off / on
  | FLD (n : ℕ)                 -- :FLD{n};   foldback release / arm / cancel
  | SRV (n : ℕ)                 -- :SRV{n};   service request over-voltage
  | SRT (n : ℕ)                 -- :SRT{n};   service request over-temperature
  | SRF (n : ℕ)                 -- :SRF{n};   service request foldback
  | OUT (n : ℕ)                 -- :OUT{n};   power off / on
  | VOL (s : String)            -- :VOL{s};   set voltage
  | CUR (s : String)            -- :CUR{s};   set amperage
  | UVP (s : String)            -- :UVP{s};   set under-voltage protection
  | OVP (s : String)            -- :OVP{s};   set over-voltage protection
  | MDLq | REVq | STTq          -- :MDL?; :REV?; :STT?;
  | VOLq | VOLSq                -- :VOL?; :VOL!;
  | CURq | CURSq                -- :CUR?; :CUR!;
  | UVPq | OVPq | OUTq          -- :UVP?; :OVP?; :OUT?;
  | ASTq | FLDq | RMTq          -- :AST?; :FLD?; :RMT?;
  | STAq | STPq | ALMq          -- :STA?; :STP?; :ALM?;
  | SRVq | SRTq | SRFq          -- :SRV?; :SRT?; :SRF?;
  deriving DecidableEq

/-- The exact wire string of a command (`:KEYWORD[arg];`). -/
def wire : PyCmd → String
  | .ADR s => ":ADR" ++ s ++ ";"
  | .RMT n => ":RMT" ++ String.mk (digitsOf n) ++ ";"
  | .DCL => ":DCL;"
  | .AST n => ":AST" ++ String.mk (digitsOf n) ++ ";"
  | .FLD n => ":FLD" ++ String.mk (digitsOf n) ++ ";"
  | .SRV n => ":SRV" ++ String.mk (digitsOf n) ++ ";"
  | .SRT n => ":SRT" ++ String.mk (digitsOf n) ++ ";"
  | .SRF n => ":SRF" ++ String.mk (digitsOf n) ++ ";"
  | .OUT n => ":OUT" ++ String.mk (digitsOf n) ++ ";"
  | .VOL s => ":VOL" ++ s ++ ";"
  | .CUR s => ":CUR" ++ s ++ ";"
  | .UVP s => ":UVP" ++ s ++ ";"
  | .OVP s => ":OVP" ++ s ++ ";"
  | .MDLq => ":MDL?;" | .REVq => ":REV?;" | .STTq => ":STT?;"
  | .VOLq => ":VOL?;" | .VOLSq => ":VOL!;"
  | .CURq => ":CUR?;" | .CURSq => ":CUR!;"
  | .UVPq => ":UVP?;" | .OVPq => ":OVP?;" | .OUTq => ":OUT?;"
  | .ASTq => ":AST?;" | .FLDq => ":FLD?;" | .RMTq => ":RMT?;"
  | .STAq => ":STA?;" | .STPq => ":STP?;" | .ALMq => ":ALM?;"
  | .SRVq => ":SRV?;" | .SRTq => ":SRT?;" | .SRFq => ":SRF?;"

/-- Whether the command is an `:ADR..;` addressing command (the old write
layer tests `Command[0:4] == ':ADR'`; on this command type that test is
exactly this discriminator). -/
def isADRc : PyCmd → Bool
  | .ADR _ => true
  | _ => false

/-- Whether a command mutates device state (set commands and `:DCL;`), as
opposed to the pure queries. -/
def stateChanging : PyCmd → Bool
  | .ADR _ => false
  | .RMT _ => true | .DCL => true | .AST _ => true | .FLD _ => true
  | .SRV _ => true | .SRT _ => true | .SRF _ => true | .OUT _ => true
  | .VOL _ => true | .CUR _ => true | .UVP _ => true | .OVP _ => true
  | _ => false

/-! ### The serial write layer

Events record what the write layer does, in order: writing a command to
the serial port, and sleeping (`time.sleep`).  Durations are in
milliseconds (`time.sleep(0.015)` is `sleep 15`). -/

inductive Ev where
  | sleep (ms : ℕ)
  | write (c : PyCmd)
  deriving DecidableEq

/-- Whether an event writes an addressing command. -/
def evAdr : Ev → Bool
  | .write c => isADRc c
  | .sleep _ => false

/-- The `'{:0>2d}'.format(self.address)` formatting of `Zup._write_command`
(`src/Zup.py` line 634). -/
def fmtAdr (address : ℕ) : String :=
  String.mk (leftPadC '0' 2 (digitsOf address))

/-- The `Zup._write_command` method of `src/Zup.py` lines 622-646, for one
physical port.  `st` is the port's entry in `Zup.listening_addresses`
(`none` when the port is absent from the map).  Returns the events emitted
and the port's new entry.  The entry is updated to the commanding address
before the addressing traffic, exactly as in the source. -/
def write_command (st : Option ℕ) (address : ℕ) (c : PyCmd) :
    List Ev × Option ℕ :=
  if st ≠ some address then
    ([.sleep 15, .write (.ADR (fmtAdr address)), .sleep 35,
      .write c, .sleep 20], some address)
  else
    ([.write c, .sleep 20], st)

/-- Events of a sequence of `Zup._write_command` calls (address, command)
sharing one port, threading the listening-addresses entry. -/
def zupTrace (st : Option ℕ) : List (ℕ × PyCmd) → List Ev
  | [] => []
  | (a, c) :: rest =>
    (write_command st a c).1 ++ zupTrace (write_command st a c).2 rest

/-- The port's listening-addresses entry after a sequence of calls. -/
def stateAfter (st : Option ℕ) : List (ℕ × PyCmd) → Option ℕ
  | [] => st
  | (a, c) :: rest => stateAfter (write_command st a c).2 rest

/-- The `_ZUp_WriteCommand` function of `src/OldCode/ABT_ZUp.py` lines
412-427: an `:ADR..;` command gets a 15 ms pre-delay and 35 ms post-delay,
every other command a 20 ms post-delay. -/
def ZUp_WriteCommand (c : PyCmd) : List Ev :=
  if isADRc c then [.sleep 15, .write c, .sleep 35]
  else [.write c, .sleep 20]

/-- Events of a sequence of `_ZUp_WriteCommand` calls. -/
def oldTrace (cs : List PyCmd) : List Ev :=
  (cs.map ZUp_WriteCommand).flatten

/-! ### Response handling -/

/-- Python `str.upper()` for ASCII strings (character-wise). -/
def pyUpper (s : String) : String :=
  String.mk (s.data.map Char.toUpper)

/-- Python `str.lower()` for ASCII strings (character-wise). -/
def pyLower (s : String) : String :=
  String.mk (s.data.map Char.toLower)

/-- Remove every `'\r\n'` occurrence, scanning left to right: the
`rl.replace('\r\n', '')` of `Zup._read_response` (`src/Zup.py` line 653). -/
def stripCRLF : List Char → List Char
  | [] => []
  | '\r' :: '\n' :: rest => stripCRLF rest
  | c :: rest => c :: stripCRLF rest

/-- The `Zup._read_response` method of `src/Zup.py` lines 648-653 as a
function of the raw line the serial port returned. -/
def read_response (raw : String) : String :=
  String.mk (stripCRLF raw.data)

/-- The `Zup.power_on` comparison (`src/Zup.py` line 340), as a function of
the raw `:OUT?;` reply. -/
def power_on (raw : String) : Bool :=
  read_response raw == "OT1"

/-- The `Zup.autostart_on` comparison (`src/Zup.py` line 405). -/
def autostart_on (raw : String) : Bool :=
  read_response raw == "AS1"

/-- The `Zup.foldback_on` comparison (`src/Zup.py` line 433). -/
def foldback_on (raw : String) : Bool :=
  read_response raw == "FD1"

/-- The `Zup.remote_latched` comparison (`src/Zup.py` line 515). -/
def remote_latched (raw : String) : Bool :=
  read_response raw == "RM2"

/-- The `Zup.service_request_over_voltage_on` comparison
(`src/Zup.py` line 550): the expected literal is `':QV1;'`. -/
def service_request_over_voltage_on (raw : String) : Bool :=
  read_response raw == ":QV1;"

/-- The `Zup.service_request_over_temperature_on` comparison
(`src/Zup.py` line 585): the expected literal is `':QT1;'`. -/
def service_request_over_temperature_on (raw : String) : Bool :=
  read_response raw == ":QT1;"

/-- The `Zup.service_request_foldback_on` comparison
(`src/Zup.py` line 620): the expected literal is `':QF1;'`. -/
def service_request_foldback_on (raw : String) : Bool :=
  read_response raw == ":QF1;"

/-! ### Model catalog tables of `src/Zup.py` lines 34-80

Each entry `{'min': a, 'MAX': b, 'Format': FORMATS[k]}` becomes a
`LimitRow` with the format represented by its `(width, trailing)` pair. -/

structure LimitRow where
  min : ℚ
  MAX : ℚ
  fmt : ℕ × ℕ
  deriving DecidableEq

/-- `Zup.VOLs` (Zup Manual Table 5.5.3; `src/Zup.py` lines 35-41). -/
def VOLs (k : String) : Option LimitRow :=
  if k = "ZUP6-XY" then some ⟨0.0, 6.300, FORMATS "1.3"⟩
  else if k = "ZUP10-XY" then some ⟨0.0, 10.500, FORMATS "2.3"⟩
  else if k = "ZUP20-XY" then some ⟨0.0, 21.000, FORMATS "2.3"⟩
  else if k = "ZUP36-XY" then some ⟨0.0, 37.80, FORMATS "2.2"⟩
  else if k = "ZUP60-XY" then some ⟨0.0, 63.00, FORMATS "2.2"⟩
  else if k = "ZUP80-XY" then some ⟨0.0, 84.00, FORMATS "2.2"⟩
  else if k = "ZUP120-XY" then some ⟨0.0, 126.00, FORMATS "3.2"⟩
  else none

/-- `Zup.CURs` (Zup Manual Table 5.5.4; `src/Zup.py` lines 44-62). -/
def CURs (k : String) : Option LimitRow :=
  if k = "ZUP6-33" then some ⟨0.0, 34.65, FORMATS "2.2"⟩
  else if k = "ZUP6-66" then some ⟨0.0, 69.30, FORMATS "2.2"⟩
  else if k = "ZUP6-132" then some ⟨0.0, 138.60, FORMATS "3.2"⟩
  else if k = "ZUP10-20" then some ⟨0.0, 21.000, FORMATS "2.3"⟩
  else if k = "ZUP10-40" then some ⟨0.0, 42.00, FORMATS "2.2"⟩
  else if k = "ZUP10-80" then some ⟨0.0, 84.00, FORMATS "2.2"⟩
  else if k = "ZUP20-10" then some ⟨0.0, 10.500, FORMATS "2.3"⟩
  else if k = "ZUP20-20" then some ⟨0.0, 21.000, FORMATS "2.3"⟩
  else if k = "ZUP20-40" then some ⟨0.0, 42.00, FORMATS "2.2"⟩
  else if k = "ZUP36-6" then some ⟨0.0, 6.300, FORMATS "1.3"⟩
  else if k = "ZUP36-12" then some ⟨0.0, 12.600, FORMATS "2.3"⟩
  else if k = "ZUP36-24" then some ⟨0.0, 25.200, FORMATS "2.3"⟩
  else if k = "ZUP60-3.5" then some ⟨0.0, 3.675, FORMATS "1.3"⟩
  else if k = "ZUP60-7" then some ⟨0.0, 7.350, FORMATS "1.3"⟩
  else if k = "ZUP60-14" then some ⟨0.0, 14.700, FORMATS "2.3"⟩
  else if k = "ZUP80-2.5" then some ⟨0.0, 2.6250, FORMATS "1.4"⟩
  else if k = "ZUP80-5" then some ⟨0.0, 5.250, FORMATS "1.3"⟩
  else if k = "ZUP120-1.8" then some ⟨0.0, 1.8900, FORMATS "1.4"⟩
  else if k = "ZUP120-3.6" then some ⟨0.0, 3.780, FORMATS "1.3"⟩
  else none

/-- `Zup.OVPs` (Zup Manual Table 5.5.11; `src/Zup.py` lines 65-71). -/
def OVPs (k : String) : Option LimitRow :=
  if k = "ZUP6-XY" then some ⟨0.2, 7.50, FORMATS "1.2"⟩
  else if k = "ZUP10-XY" then some ⟨0.5, 13.0, FORMATS "2.1"⟩
  else if k = "ZUP20-XY" then some ⟨1.0, 24.0, FORMATS "2.1"⟩
  else if k = "ZUP36-XY" then some ⟨0.8, 40.0, FORMATS "2.1"⟩
  else if k = "ZUP60-XY" then some ⟨3.0, 66.0, FORMATS "2.1"⟩
  else if k = "ZUP80-XY" then some ⟨4.0, 88.0, FORMATS "2.1"⟩
  else if k = "ZUP120-XY" then some ⟨6.0, 132.0, FORMATS "3.1"⟩
  else none

/-- `Zup.UVPs` (Zup Manual Table 5.5.13; `src/Zup.py` lines 74-80). -/
def UVPs (k : String) : Option LimitRow :=
  if k = "ZUP6-XY" then some ⟨0.0, 5.98, FORMATS "1.2"⟩
  else if k = "ZUP10-XY" then some ⟨0.0, 9.97, FORMATS "1.2"⟩
  else if k = "ZUP20-XY" then some ⟨0.0, 19.9, FORMATS "2.1"⟩
  else if k = "ZUP36-XY" then some ⟨0.0, 35.9, FORMATS "2.1"⟩
  else if k = "ZUP60-XY" then some ⟨0.0, 59.8, FORMATS "2.1"⟩
  else if k = "ZUP80-XY" then some ⟨0.0, 79.8, FORMATS "2.1"⟩
  else if k = "ZUP120-XY" then some ⟨0.0, 119.8, FORMATS "3.1"⟩
  else none

/-! ### String slicing helpers for the model reply -/

/-- Split a character list at the first occurrence of `ch`:
`some (before, after)`, or `none` if `ch` is absent (where Python
`str.index` would raise). -/
def splitOnceC (ch : Char) : List Char → Option (List Char × List Char)
  | [] => none
  | c :: rest =>
    if c = ch then some ([], rest)
    else (splitOnceC ch rest).map (fun p => (c :: p.1, p.2))

/-- The `(v, a)` rating substrings of a model string such as `36V-6A`
(the slicing of `src/Zup.py` lines 108-109). -/
def ratingsOf (inner : List Char) : Option (List Char × List Char) := do
  let (v, _) ← splitOnceC 'V' inner
  let (_, afterDash) ← splitOnceC '-' inner
  let (a, _) ← splitOnceC 'A' afterDash
  pure (v, a)

/-- The text between the first `(` and the following `)` of the model
reply (the slicing of `src/Zup.py` line 107). -/
def parenInner (cs : List Char) : Option (List Char) := do
  let (_, afterParen) ← splitOnceC '(' cs
  let (inner, _) ← splitOnceC ')' afterParen
  pure inner

/-- The resolved per-instance rows of a constructed `Zup` object. -/
structure InitResult where
  CUR : LimitRow
  VOL : LimitRow
  OVP : LimitRow
  UVP : LimitRow
  deriving DecidableEq

/-- `Zup.BAUD_RATES` membership (`src/Zup.py` line 24). -/
def baudOK (baudrate : ℕ) : Bool :=
  baudrate = 300 ∨ baudrate = 600 ∨ baudrate = 1200 ∨ baudrate = 2400 ∨
    baudrate = 4800 ∨ baudrate = 9600

/-- The `Zup.__init__` initializer of `src/Zup.py` lines 82-116, as a
function of the address, the port's baud rate and the raw `:MDL?;` reply.
Returns the commands issued (in order) and either the resolved rows or the
error raised.  After the address and baud validation the initializer calls
`set_remote_mode('Remote Latched')` (emitting `:RMT2;`) and then
`get_model()` (emitting `:MDL?;`); the remaining work is string slicing
and table lookups, which issue no commands. -/
def zupInit (address baudrate : ℕ) (mdlReply : String) :
    List PyCmd × Except String InitResult :=
  if ¬ (1 ≤ address ∧ address ≤ 31) then
    ([], .error "Invalid address, must be in range")
  else if ¬ baudOK baudrate then
    ([], .error "Invalid baud rate, must be in list")
  else
    let trace : List PyCmd := [.RMT 2, .MDLq]
    let res : Except String InitResult :=
      match parenInner (read_response mdlReply).data with
      | none => .error "model reply lacks parentheses"
      | some inner =>
        match ratingsOf inner with
        | none => .error "model reply lacks ratings"
        | some (v, a) =>
          let keyCUR := "ZUP" ++ String.mk v ++ "-" ++ String.mk a
          let keyXY := "ZUP" ++ String.mk v ++ "-XY"
          match CURs keyCUR, VOLs keyXY, OVPs keyXY, UVPs keyXY with
          | some cur, some vol, some ovp, some uvp =>
            .ok ⟨cur, vol, ovp, uvp⟩
          | _, _, _, _ => .error "unknown model"
    (trace, res)

/-- Whether an `Except` result is a raised error. -/
def isErr {ε α : Type} : Except ε α → Bool
  | .error _ => true
  | .ok _ => false

/-! ### `Zup.set_voltage` and `Zup.set_over_voltage_protection`

Both methods are embedded as functions of the per-instance rows, the
relevant device readbacks (the responses the device would give to the
protection/set-point queries the method performs) and the argument.  They
return the raised/ok outcome together with the list of commands handed to
`_write_command` — each of those costs at least one transport write. -/

/-- `Zup.set_voltage` (`src/Zup.py` lines 208-228).  `uvpRead` and
`ovpRead` are the parsed replies of `get_under_voltage_protection()` and
`get_over_voltage_protection()`.  Python evaluates the chained comparison
`get_uvp()/0.95 <= volts <= get_ovp()/1.05` of line 224 left to right and
short-circuits, so the condition issues the `:OVP?;` query only when the
first inequality holds; when the condition fails, formatting the
`ValueError` message of line 225 calls both getters again, issuing one
more `:UVP?;` and one more `:OVP?;` query before the raise. -/
def set_voltage (VOL : LimitRow) (uvpRead ovpRead : ℚ) (volts : ℚ) :
    Except String Unit × List PyCmd :=
  if ¬ (VOL.min ≤ volts ∧ volts ≤ VOL.MAX) then
    (.error "Invalid voltage, must *always* be in range", [])
  else if ¬ (uvpRead / 0.95 ≤ volts) then
    (.error "Invalid voltage, must *presently* be in range",
      [.UVPq, .UVPq, .OVPq])
  else if ¬ (volts ≤ ovpRead / 1.05) then
    (.error "Invalid voltage, must *presently* be in range",
      [.UVPq, .OVPq, .UVPq, .OVPq])
  else
    (.ok (), [.UVPq, .OVPq, .VOL (fmtApply VOL.fmt volts)])

/-- `Zup.set_over_voltage_protection` (`src/Zup.py` lines 285-306).
`voltSetRead` is the parsed reply of `get_voltage_set()`.  The chained
comparison of line 301 issues one `:VOL!;` query; when it fails,
formatting the `ValueError` message of line 302 calls
`get_voltage_set()` again, issuing a second `:VOL!;` query before the
raise.  Note the formatting step of line 304 is
`volts = self.UVP['Format'].format(volts)`: the source formats the
over-voltage argument with the UVP format specification, not the OVP
one. -/
def set_over_voltage_protection (OVP UVP : LimitRow) (voltSetRead : ℚ)
    (volts : ℚ) : Except String Unit × List PyCmd :=
  if ¬ (OVP.min ≤ volts ∧ volts ≤ OVP.MAX) then
    (.error "Invalid over-voltage, must *always* be in range", [])
  else if ¬ (voltSetRead * 1.05 ≤ volts) then
    (.error "Invalid over-voltage, must *presently* be in range",
      [.VOLSq, .VOLSq])
  else if ¬ (volts ≤ OVP.MAX) then
    (.error "Invalid over-voltage, must *presently* be in range",
      [.VOLSq, .VOLSq])
  else
    (.ok (), [.VOLSq, .OVP (fmtApply UVP.fmt volts)])

/-! ### The old multi-device sequencer, `src/OldCode/ABT_ZUp.py`

Traces are at the command level: the list of commands handed to
`_ZUp_WriteCommand`, in order (each costs one serial write; the delays of
the write layer are modelled separately by `ZUp_WriteCommand`).  Device
responses are supplied by environments: `mdl` is the model substring that
`_ZUp_GetModel` extracts from the `:MDL?;` reply (the text between the
parentheses), `curSetRead` is the parsed `float(SA[2:len(SA)-2])` reply to
`:CUR!;`, and `sta` is the raw `:STA?;` reply. -/

/-- `_ZUp_VOL_TOLERANCE` (`src/OldCode/ABT_ZUp.py` line 66). -/
def ZUp_VOL_TOLERANCE : ℚ := 10

/-- `_ZUp_CUR_TOLERANCE` (`src/OldCode/ABT_ZUp.py` line 73). -/
def ZUp_CUR_TOLERANCE : ℚ := 5

/-- `_ZUp_FormatAddress` (`src/OldCode/ABT_ZUp.py` lines 186-190). -/
def ZUp_FormatAddress (address : ℕ) : String :=
  if address < 10 then "0" ++ String.mk (digitsOf address)
  else String.mk (digitsOf address)

/-- One `ZUp` plan entry `[Address, Voltage, Amperage, Foldback]`
(`src/OldCode/ABT_ZUp.py` lines 79-87). -/
structure ZUpEntry where
  address : ℕ
  voltage : ℚ
  amperage : ℚ
  foldback : String
  deriving DecidableEq

/-- Device responses for the power-on sequencer. -/
structure OldEnv where
  mdl : ℕ → String
  curSetRead : ℕ → ℚ

/-- The write sequence of one iteration of the `for ZUp in ZUps` loop of
`_ZUps_PowerVAs` (`src/OldCode/ABT_ZUp.py` lines 293-401), with the
computed payload strings as parameters, in source order: configure
(address, remote latch, clear, autostart off, foldback per plan, service
requests off), model query, UVP minimum, OVP maximum, set-current query,
the early current raise when the desired current exceeds the read-back
set current, voltage, energize, then final current, OVP and UVP. -/
def powerBlock (adrS : String) (fldOn : Bool) (uvpMin ovpMax : String)
    (raiseEarly : Bool) (volS curS ovpS uvpS : String) : List PyCmd :=
  [.ADR adrS, .RMT 2, .DCL, .AST 0,
   (if fldOn then .FLD 1 else .FLD 2),
   .SRV 0, .SRT 0, .SRF 0, .MDLq,
   .UVP uvpMin, .OVP ovpMax, .CURSq]
  ++ (if raiseEarly then [.CUR curS] else [])
  ++ [.VOL volS, .OUT 1, .CUR curS, .OVP ovpS, .UVP uvpS]

/-- The per-device body of the `for ZUp in ZUps` loop of `_ZUps_PowerVAs`
(`src/OldCode/ABT_ZUp.py` lines 293-401): configure, set UVP minimum and
OVP maximum, query the set current and raise it early if the desired
current is above it, set voltage, energize, then set the final current,
OVP and UVP.  The `time.sleep(0.250)` after `:OUT1;` emits no command.
The model-string branches (including the `'120V-3.6'` comparison of line
327, which lacks the trailing `A`) follow the source literally. -/
def powerDevice (env : OldEnv) (z : ZUpEntry) : List PyCmd :=
  let MDL := env.mdl z.address
  let VOL :=
    if MDL = "6V-33A" ∨ MDL = "6V-66A" ∨ MDL = "6V-132A" then
      pyFormatS z.voltage 1 3
    else if MDL = "10V-20A" ∨ MDL = "10V-40A" ∨ MDL = "10V-80A" ∨
        MDL = "20V-10A" ∨ MDL = "20V-20A" ∨ MDL = "20V-40A" then
      pyFormatS z.voltage 2 3
    else if MDL = "36V-6A" ∨ MDL = "36V-12A" ∨ MDL = "36V-24A" ∨
        MDL = "60V-3.5A" ∨ MDL = "60V-7A" ∨ MDL = "60V-14A" ∨
        MDL = "80V-2.5A" ∨ MDL = "80V-5A" then
      pyFormatS z.voltage 2 2
    else -- '120V-1.8A' or '120V-3.6A'
      pyFormatS z.voltage 3 2
  let CUR :=
    if MDL = "6V-33A" ∨ MDL = "6V-66A" ∨ MDL = "10V-40A" ∨
        MDL = "10V-80A" ∨ MDL = "20V-40A" then
      pyFormatS z.amperage 2 2
    else if MDL = "6V-132A" then
      pyFormatS z.amperage 3 2
    else if MDL = "10V-20A" ∨ MDL = "20V-10A" ∨ MDL = "20V-20A" ∨
        MDL = "36V-12A" ∨ MDL = "36V-24A" ∨ MDL = "60V-14A" then
      pyFormatS z.amperage 2 3
    else if MDL = "36V-6A" ∨ MDL = "60V-3.5A" ∨ MDL = "60V-7A" ∨
        MDL = "80V-5A" ∨ MDL = "120V-3.6" then
      pyFormatS z.amperage 1 3
    else -- '80V-2.5A' or '120V-1.8A'
      pyFormatS z.amperage 1 4
  let uv := z.voltage * (1 - ZUp_VOL_TOLERANCE / 100)
  let UVPpair :=
    if MDL = "6V-33A" ∨ MDL = "6V-66A" ∨ MDL = "6V-132A" ∨
        MDL = "10V-20A" ∨ MDL = "10V-40A" ∨ MDL = "10V-80A" then
      (pyFormatS uv 1 2, pyFormatS 0 1 2)
    else if MDL = "120V-1.8A" ∨ MDL = "120V-3.6A" then
      (pyFormatS uv 3 1, pyFormatS 0 3 1)
    else
      (pyFormatS uv 2 1, pyFormatS 0 2 1)
  let ov := z.voltage * (1 + ZUp_VOL_TOLERANCE / 100)
  let OVPpair :=
    if MDL = "6V-33A" ∨ MDL = "6V-66A" ∨ MDL = "6V-132A" then
      (pyFormatS (if ov < 0.2 then 0.2 else ov) 1 2, pyFormatS 7.50 1 2)
    else if MDL = "10V-20A" ∨ MDL = "10V-40A" ∨ MDL = "10V-80A" then
      (pyFormatS (if ov < 0.5 then 0.5 else ov) 2 1, pyFormatS 13.0 2 1)
    else if MDL = "20V-10A" ∨ MDL = "20V-20A" ∨ MDL = "20V-40A" then
      (pyFormatS (if ov < 1.0 then 1.0 else ov) 2 1, pyFormatS 24.0 2 1)
    else if MDL = "36V-6A" ∨ MDL = "36V-12A" ∨ MDL = "36V-24A" then
      (pyFormatS (if ov < 1.8 then 1.8 else ov) 2 1, pyFormatS 40.0 2 1)
    else if MDL = "60V-3.5A" ∨ MDL = "60V-7A" ∨ MDL = "60V-14A" then
      (pyFormatS (if ov < 3.0 then 3.0 else ov) 2 1, pyFormatS 66.0 2 1)
    else if MDL = "80V-2.5A" ∨ MDL = "80V-5A" then
      (pyFormatS (if ov < 4.0 then 4.0 else ov) 2 1, pyFormatS 88.0 2 1)
    else -- '120V-1.8A' or '120V-3.6A'
      (pyFormatS (if ov < 6.0 then 6.0 else ov) 3 1, pyFormatS 132.0 3 1)
  powerBlock (ZUp_FormatAddress z.address)
    (pyUpper z.foldback = "FLD_ON") UVPpair.2 OVPpair.2
    (env.curSetRead z.address < z.amperage) VOL CUR OVPpair.1 UVPpair.1

/-- `_ZUps_PowerVAs` (`src/OldCode/ABT_ZUp.py` lines 293-401): the
`for ZUp in ZUps` loop emits each entry's commands in plan order. -/
def ZUps_PowerVAs (env : OldEnv) : List ZUpEntry → List PyCmd
  | [] => []
  | z :: rest => powerDevice env z ++ ZUps_PowerVAs env rest

/-- The voltage check of `_ZUps_VerifySetVAs` (`src/OldCode/ABT_ZUp.py`
line 200): `0 <= ZUp[_INDEX_VOLTAGE] <= V`. -/
def setVoltageOK (V volt : ℚ) : Bool :=
  decide (0 ≤ volt ∧ volt ≤ V)

/-- The amperage check of `_ZUps_VerifySetVAs` (`src/OldCode/ABT_ZUp.py`
line 205): `0 <= ZUp[_INDEX_AMPERAGE] <= A * (1 + _ZUp_CUR_TOLERANCE)`. -/
def setAmperageOK (A amp : ℚ) : Bool :=
  decide (0 ≤ amp ∧ amp ≤ A * (1 + ZUp_CUR_TOLERANCE))

/-- The actual-voltage check of `_ZUps_VerifyActualVAs`
(`src/OldCode/ABT_ZUp.py` line 275). -/
def actualVoltageOK (target V : ℚ) : Bool :=
  decide (target * (1 - ZUp_VOL_TOLERANCE / 100) ≤ V ∧
    V ≤ target * (1 + ZUp_VOL_TOLERANCE / 100))

/-- The actual-amperage check of `_ZUps_VerifyActualVAs`
(`src/OldCode/ABT_ZUp.py` line 279):
`0 <= A <= ZUp[_INDEX_AMPERAGE] * (1 + _ZUp_CUR_TOLERANCE)`. -/
def actualAmperageOK (target A : ℚ) : Bool :=
  decide (0 ≤ A ∧ A ≤ target * (1 + ZUp_CUR_TOLERANCE))

/-- The `V, A` rating parse of `_ZUps_VerifySetVAs`
(`src/OldCode/ABT_ZUp.py` line 198): `float(MDL[0:MDL.index('V')])` and
`float(MDL[MDL.index('-') + 1:MDL.index('A')])`. -/
def modelRatings (MDL : String) : Option (ℚ × ℚ) := do
  let (v, a) ← ratingsOf MDL.data
  let V ← parseDecChars v
  let A ← parseDecChars a
  pure (V, A)

/-- Whether every entry of the plan passes `_ZUps_VerifySetVAs`
(`src/OldCode/ABT_ZUp.py` lines 193-214); `none` when a model string does
not parse (where the source would raise while slicing). -/
def ZUps_VerifySetVAs_ok (env : OldEnv) : List ZUpEntry → Option Bool
  | [] => some true
  | z :: rest => do
    let (V, A) ← modelRatings (env.mdl z.address)
    let restOK ← ZUps_VerifySetVAs_ok env rest
    pure (setVoltageOK V z.voltage && setAmperageOK A z.amperage && restOK)

/-! ### `ZUps_off` (`src/OldCode/ABT_ZUp.py` lines 100-108) -/

/-- Device responses for the power-off sequencer. -/
structure OffEnv where
  sta : ℕ → String

/-- The `OSR[5:6]` slice of `_ZUps_VerifyPower`
(`src/OldCode/ABT_ZUp.py` line 237). -/
def slice56 (osr : String) : List Char :=
  (osr.data.drop 5).take 1

/-- The commands of `_ZUp_ReadStatus` (`src/OldCode/ABT_ZUp.py` lines
438-471), issued for each failing device while building the failure
message. -/
def readStatusBlock (a : ℕ) : List PyCmd :=
  [.ADR (ZUp_FormatAddress a), .VOLq, .CURq, .STAq, .ALMq, .STPq, .RMTq,
   .MDLq, .REVq, .VOLSq, .CURSq, .FLDq, .OVPq, .UVPq, .ASTq]

/-- `_ZUps_SetPower` (`src/OldCode/ABT_ZUp.py` lines 217-224). -/
def ZUps_SetPower (addrs : List ℕ) (desired : String) : List PyCmd :=
  (addrs.map (fun a =>
    [.ADR (ZUp_FormatAddress a),
     if pyLower desired = "off" then .OUT 0 else .OUT 1])).flatten

/-- `_ZUps_VerifyPower` (`src/OldCode/ABT_ZUp.py` lines 227-247): per
address, an `:ADR..;` and `:STA?;`, plus a full `_ZUp_ReadStatus` battery
when the power bit contradicts the expected state.  Returns the commands
and whether any device failed (in which case the source raises
`RuntimeError` after the loop). -/
def ZUps_VerifyPower (env : OffEnv) (expected : String) :
    List ℕ → List PyCmd × Bool
  | [] => ([], false)
  | a :: rest =>
    let osr := env.sta a
    let fail :=
      (decide (slice56 osr = ['0']) && (pyUpper expected == "ON")) ||
        (decide (slice56 osr = ['1']) && (pyLower expected == "off"))
    let here := [.ADR (ZUp_FormatAddress a), .STAq] ++
      (if fail then readStatusBlock a else [])
    (here ++ (ZUps_VerifyPower env expected rest).1,
      fail || (ZUps_VerifyPower env expected rest).2)

/-- `_ZUps_CleanUp` (`src/OldCode/ABT_ZUp.py` lines 250-257). -/
def ZUps_CleanUp (addrs : List ℕ) : List PyCmd :=
  (addrs.map (fun a =>
    [.ADR (ZUp_FormatAddress a), .RMT 1, .DCL, .FLD 2, .AST 0])).flatten

/-- `_ZUps_VerifyAddresses` (`src/OldCode/ABT_ZUp.py` lines 131-142) as a
pass/fail check. -/
def ZUps_VerifyAddresses_ok (addrs : List ℕ) : Bool :=
  decide (1 ≤ addrs.length ∧ addrs.length ≤ 31) &&
    addrs.all (fun a => decide (1 ≤ a ∧ a ≤ 31))

/-- `ZUps_off` (`src/OldCode/ABT_ZUp.py` lines 100-108): validate, command
power off, verify, and clean up — the cleanup commands are only reached
when `_ZUps_VerifyPower` raised nothing.  Returns the commands emitted and
whether an error was raised. -/
def ZUps_off (env : OffEnv) (addrs : List ℕ) (baud : ℕ) :
    List PyCmd × Bool :=
  if ¬ ZUps_VerifyAddresses_ok addrs then ([], true)
  else if ¬ baudOK baud then ([], true)
  else
    let t1 := ZUps_SetPower addrs "off"
    let vp := ZUps_VerifyPower env "off" addrs
    if vp.2 then (t1 ++ vp.1, true)
    else (t1 ++ vp.1 ++ ZUps_CleanUp addrs, false)

/-! ### Predicates used to state the claims -/

/-- Whether a command is a `:UVP..;` set command. -/
def isUVPset : PyCmd → Bool
  | .UVP _ => true
  | _ => false

/-- Whether a command is an `:OVP..;` set command. -/
def isOVPset : PyCmd → Bool
  | .OVP _ => true
  | _ => false

/-- Whether a command is a `:VOL..;` set command. -/
def isVOLset : PyCmd → Bool
  | .VOL _ => true
  | _ => false

/-- Whether a command is a `:CUR..;` set command. -/
def isCURset : PyCmd → Bool
  | .CUR _ => true
  | _ => false

/-- Whether a command is the `:OUT1;` energize command. -/
def isOUT1 : PyCmd → Bool
  | .OUT 1 => true
  | _ => false

/-- Whether a command is one of the four cleanup commands of
`_ZUps_CleanUp` (`:RMT1;`, `:DCL;`, `:FLD2;`, `:AST0;`). -/
def isCleanupCmd : PyCmd → Bool
  | .RMT 1 => true
  | .DCL => true
  | .FLD 2 => true
  | .AST 0 => true
  | _ => false

/-- Correct bus addressing along a call sequence (the statement of claim
C4): at every call, an addressing command is emitted iff the port entry
differs from the commanded address; when it is emitted, it comes with the
pre- and post-address settle delays; and after the call the port entry
equals the commanded address. -/
def AdrCorrect : Option ℕ → List (ℕ × PyCmd) → Prop
  | _, [] => True
  | st, (a, c) :: rest =>
    ((write_command st a c).1.any evAdr = true ↔ st ≠ some a)
    ∧ (st ≠ some a → (write_command st a c).1 =
        [.sleep 15, .write (.ADR (fmtAdr a)), .sleep 35, .write c, .sleep 20])
    ∧ (st = some a → (write_command st a c).1 = [.write c, .sleep 20])
    ∧ (write_command st a c).2 = some a
    ∧ AdrCorrect (some a) rest

/-- Settle-delay discipline of an event trace (the statement of claim C9):
every write is immediately followed by a sleep of at least 15 ms (hence at
least that much delay passes before the next write); a write of an
addressing command is followed by a sleep of at least 30 ms and preceded
by a sleep of at least 10 ms; no two writes are adjacent. -/
def gapsOK : List Ev → Bool
  | [] => true
  | [.sleep _] => true
  | [.write _] => false
  | .write c :: .sleep d :: rest =>
    decide (15 ≤ d) && (!(isADRc c) || decide (30 ≤ d)) &&
      gapsOK (Ev.sleep d :: rest)
  | .write _ :: .write _ :: _ => false
  | .sleep d :: .write c :: rest =>
    (!(isADRc c) || decide (10 ≤ d)) && gapsOK (Ev.write c :: rest)
  | .sleep _ :: .sleep d :: rest => gapsOK (Ev.sleep d :: rest)

/-- Whether a trace begins with an addressing write (such a write would
lack its required preceding delay). -/
def headAdrW : List Ev → Bool
  | .write c :: _ => isADRc c
  | _ => false

/-- Full delay discipline of claim C9. -/
def delaysOK (tr : List Ev) : Bool :=
  gapsOK tr && ! headAdrW tr

/-- C10: `service_request_over_voltage_on`, `service_request_over_temperature_on`
and `service_request_foldback_on` return `True` exactly when the (CR/LF
stripped) response equals the literals `':QV1;'`, `':QT1;'`, `':QF1;'`
with leading colon and trailing semicolon; any bare two-letter-prefix
reply such as `'QV1'` therefore yields `False`, while the other
binary-state queries compare against the bare literals `'OT1'`, `'AS1'`,
`'FD1'`, `'RM2'`. -/
theorem C10_service_request_literals :
    (∀ raw, service_request_over_voltage_on raw = true ↔
      read_response raw = ":QV1;")
    ∧ (∀ raw, service_request_over_temperature_on raw = true ↔
      read_response raw = ":QT1;")
    ∧ (∀ raw, service_request_foldback_on raw = true ↔
      read_response raw = ":QF1;")
    ∧ (∀ raw, read_response raw = "QV1" →
      service_request_over_voltage_on raw = false)
    ∧ (∀ raw, read_response raw = "QT1" →
      service_request_over_temperature_on raw = false)
    ∧ (∀ raw, read_response raw = "QF1" →
      service_request_foldback_on raw = false)
    ∧ power_on "OT1\r\n" = true ∧ autostart_on "AS1\r\n" = true
    ∧ foldback_on "FD1\r\n" = true ∧ remote_latched "RM2\r\n" = true := by
  refine ⟨fun raw => ?_, fun raw => ?_, fun raw => ?_,
    fun raw h => ?_, fun raw h => ?_, fun raw h => ?_,
    by decide, by decide, by decide, by decide⟩
  · simp [service_request_over_voltage_on]
  · simp [service_request_over_temperature_on]
  · simp [service_request_foldback_on]
  · simp [service_request_over_voltage_on, h]
  · simp [service_request_over_temperature_on, h]
  · simp [service_request_foldback_on, h]

/-- Witness for C10 at a concrete bare-form reply: the device sending
`QV1` (with its CR/LF framing) makes the over-voltage query return
`False`, by the theorem applied at `raw = "QV1\r\n"`. -/
theorem C10_witness :
    service_request_over_voltage_on "QV1\r\n" = false :=
  C10_service_request_literals.2.2.2.1 "QV1\r\n" (by decide)

/-- C3: the claim is that PowerOn validation accepts a requested current
exactly when it is at most rated times 1.05, and readback verification
accepts only currents at most requested times 1.05.  The code applies the
tolerance `_ZUp_CUR_TOLERANCE = 5` without dividing by 100, so both
checks compare against six times the bound instead: a request of 10 A on a
6 A model passes validation, and a readback of 10 A against a 2 A request
passes verification, although both exceed the 1.05 bounds.  This
contradicts the tolerance's own documentation (`5 = +5% tolerance`), so
the code, not the claim, is wrong. -/
theorem C3_current_tolerance_bug :
    setAmperageOK 6 10 = true
    ∧ ¬ ((10 : ℚ) ≤ 6 * 1.05)
    ∧ actualAmperageOK 2 10 = true
    ∧ ¬ ((10 : ℚ) ≤ 2 * 1.05)
    ∧ ZUps_VerifySetVAs_ok ⟨fun _ => "36V-6A", fun _ => 6⟩
        [⟨1, 3.3, 10, "FLD_off"⟩] = some true := by decide

/-- C5: the claim is that `set_over_voltage_protection` formats its
argument with the model's OVP format specification.  The source formats
with `self.UVP['Format']` (`src/Zup.py` line 304) instead.  For the ZUP10
family the two differ: OVP format is `'2.1'` (width 4, one decimal) while
UVP format is `'1.2'` (width 4, two decimals), so programming OVP to 13.0
on a ZUP10 sends `:OVP13.00;` where the OVP format would give `13.0`.
The OVP format column of the catalog is otherwise unused, and all sibling
setters use their own quantity's format, so the code is a slip. -/
theorem C5_ovp_format_bug :
    OVPs "ZUP10-XY" = some ⟨0.5, 13.0, (4, 1)⟩
    ∧ UVPs "ZUP10-XY" = some ⟨0.0, 9.97, (4, 2)⟩
    ∧ isErr (set_over_voltage_protection ⟨0.5, 13.0, (4, 1)⟩
        ⟨0.0, 9.97, (4, 2)⟩ 0 13).1 = false
    ∧ (set_over_voltage_protection ⟨0.5, 13.0, (4, 1)⟩ ⟨0.0, 9.97, (4, 2)⟩
        0 13).2 = [.VOLSq, .OVP "13.00"]
    ∧ fmtApply (4, 1) 13 = "13.0"
    ∧ ("13.00" : String) ≠ "13.0" := by decide

/-- C6, counterexample: constructing a handle at address 1, 9600 baud, on
a device reporting model `36V-6A` succeeds and issues `:RMT2;` before the
model query, so it is false that only the model query (or only
non-state-changing commands) are issued. -/
theorem C6_counterexample :
    (zupInit 1 9600 "Nemic-Lambda ZUP(36V-6A)\r\n").1 = [.RMT 2, .MDLq]
    ∧ isErr (zupInit 1 9600 "Nemic-Lambda ZUP(36V-6A)\r\n").2 = false
    ∧ ¬ (∀ c ∈ (zupInit 1 9600 "Nemic-Lambda ZUP(36V-6A)\r\n").1,
        c = PyCmd.MDLq ∨ stateChanging c = false) := by decide

/-- C6, amended: for every valid address and baud rate, construction
issues exactly the remote-latched command `:RMT2;` followed by the model
query `:MDL?;`, and nothing else — so the device's power, voltage and
current state are untouched, but its remote mode is latched. -/
theorem C6_init_commands (address baudrate : ℕ) (mdlReply : String)
    (h1 : 1 ≤ address ∧ address ≤ 31) (h2 : baudOK baudrate = true) :
    (zupInit address baudrate mdlReply).1 = [.RMT 2, .MDLq] := by
  simp [zupInit, h1.1, h1.2, h2]

/-- Witness for C6 at address 1, 9600 baud. -/
theorem C6_witness :
    (zupInit 1 9600 "Nemic-Lambda ZUP(36V-6A)\r\n").1 = [.RMT 2, .MDLq] :=
  C6_init_commands 1 9600 "Nemic-Lambda ZUP(36V-6A)\r\n"
    (by decide) (by decide)

/-- C2, counterexample: a `set_voltage` call whose argument passes the
absolute envelope but violates the relative UVP/OVP window (20 V on a
ZUP36 with OVP read back as 5 V) raises, yet four query commands were
sent over the transport first (two for the chained comparison, two more
while the error message is formatted), so the write count is 4, not 0. -/
theorem C2_counterexample :
    isErr (set_voltage ⟨0.0, 37.80, (5, 2)⟩ 0 5 20).1 = true
    ∧ (set_voltage ⟨0.0, 37.80, (5, 2)⟩ 0 5 20).2 =
      [.UVPq, .OVPq, .UVPq, .OVPq]
    ∧ (set_voltage ⟨0.0, 37.80, (5, 2)⟩ 0 5 20).2.length ≠ 0 := by
  decide

/-- C2, amended: a voltage outside the absolute rated envelope raises
before any command is sent (zero writes); a voltage inside the envelope
that violates the relative UVP/OVP window raises after sending only
protection-limit queries — three or four of them: one or two for the
chained comparison (which short-circuits), plus one `:UVP?;` and one
`:OVP?;` re-issued while the error message is formatted — and in
particular sends no state-changing command and no `:VOL` command. -/
theorem C2_validation_writes (VOL : LimitRow) (uvpRead ovpRead volts : ℚ) :
    (¬ (VOL.min ≤ volts ∧ volts ≤ VOL.MAX) →
      isErr (set_voltage VOL uvpRead ovpRead volts).1 = true
      ∧ (set_voltage VOL uvpRead ovpRead volts).2 = [])
    ∧ ((VOL.min ≤ volts ∧ volts ≤ VOL.MAX) →
      ¬ (uvpRead / 0.95 ≤ volts ∧ volts ≤ ovpRead / 1.05) →
      isErr (set_voltage VOL uvpRead ovpRead volts).1 = true
      ∧ ((set_voltage VOL uvpRead ovpRead volts).2 =
          [.UVPq, .UVPq, .OVPq]
        ∨ (set_voltage VOL uvpRead ovpRead volts).2 =
          [.UVPq, .OVPq, .UVPq, .OVPq])
      ∧ ∀ c ∈ (set_voltage VOL uvpRead ovpRead volts).2,
          stateChanging c = false) := by
  constructor
  · intro h
    simp [set_voltage, h, isErr]
  · intro h h2
    by_cases hu : uvpRead / 0.95 ≤ volts
    · have hv : ¬ (volts ≤ ovpRead / 1.05) := fun hvv => h2 ⟨hu, hvv⟩
      simp [set_voltage, h, hu, hv, isErr, stateChanging]
    · simp [set_voltage, h, hu, isErr, stateChanging]

/-- Witness for C2 at the concrete relative-window violation of the
counterexample input. -/
theorem C2_witness :
    isErr (set_voltage ⟨0.0, 37.80, (5, 2)⟩ 0 5 20).1 = true
    ∧ ((set_voltage ⟨0.0, 37.80, (5, 2)⟩ 0 5 20).2 =
        [.UVPq, .UVPq, .OVPq]
      ∨ (set_voltage ⟨0.0, 37.80, (5, 2)⟩ 0 5 20).2 =
        [.UVPq, .OVPq, .UVPq, .OVPq]) := by
  have h := (C2_validation_writes ⟨0.0, 37.80, (5, 2)⟩ 0 5 20).2
    (by norm_num) (by decide)
  exact ⟨h.1, h.2.1⟩

/-- Every command of a `_ZUp_ReadStatus` battery is an addressing command
or a query, never a cleanup command. -/
theorem readStatus_no_cleanup (a : ℕ) :
    ∀ c ∈ readStatusBlock a, isCleanupCmd c = false := by
  intro c hc
  simp only [readStatusBlock, List.not_mem_nil, List.mem_cons,
    or_false] at hc
  rcases hc with rfl | rfl | rfl | rfl | rfl | rfl | rfl | rfl | rfl |
    rfl | rfl | rfl | rfl | rfl | rfl <;> rfl

/-- Every command `_ZUps_SetPower` emits is an addressing or output
command, never a cleanup command. -/
theorem setPower_no_cleanup (addrs : List ℕ) (d : String) :
    ∀ c ∈ ZUps_SetPower addrs d, isCleanupCmd c = false := by
  induction addrs with
  | nil => intro c hc; simp [ZUps_SetPower] at hc
  | cons a rest ih =>
    intro c hc
    simp only [ZUps_SetPower, List.map_cons, List.flatten_cons,
      List.cons_append, List.nil_append, List.mem_append, List.mem_cons,
      List.not_mem_nil, or_false] at hc
    rcases hc with h | h | hc
    · subst h; rfl
    · split at h <;> (subst h; rfl)
    · exact ih c (by simpa [ZUps_SetPower] using hc)

/-- Every command `_ZUps_VerifyPower` emits is an addressing command or a
query, never a cleanup command. -/
theorem verifyPower_no_cleanup (env : OffEnv) (e : String)
    (addrs : List ℕ) :
    ∀ c ∈ (ZUps_VerifyPower env e addrs).1, isCleanupCmd c = false := by
  induction addrs with
  | nil => intro c hc; simp [ZUps_VerifyPower] at hc
  | cons a rest ih =>
    intro c hc
    simp only [ZUps_VerifyPower, List.append_assoc, List.cons_append,
      List.nil_append, List.mem_append, List.mem_cons] at hc
    rcases hc with h | h | hc | hc
    · subst h; rfl
    · subst h; rfl
    · split at hc
      · exact readStatus_no_cleanup a c hc
      · simp at hc
    · exact ih c hc

/-- C7, counterexample: powering off addresses 1 and 2 where device 1
reads back off but device 2 reads back still on raises, and the emitted
command trace contains none of the cleanup commands — not even for device
1, which passed off-verification. -/
theorem C7_counterexample :
    (ZUps_off ⟨fun a => if a = 2 then "OS00010000" else "OS00000000"⟩
      [1, 2] 9600).2 = true
    ∧ slice56 "OS00000000" = ['0']
    ∧ (∀ c ∈ (ZUps_off
        ⟨fun a => if a = 2 then "OS00010000" else "OS00000000"⟩
        [1, 2] 9600).1, isCleanupCmd c = false) := by decide

/-- C7, amended: when the power-off verification finds any device still
on, `ZUps_off` raises and the cleanup phase runs for no device at all
(its four cleanup commands appear nowhere in the trace); the cleanup
phase runs — for every device — only when every device passes
off-verification. -/
theorem C7_no_cleanup_on_failed_verify (env : OffEnv) (addrs : List ℕ)
    (baud : ℕ) (hv : ZUps_VerifyAddresses_ok addrs = true)
    (hb : baudOK baud = true) :
    ((ZUps_VerifyPower env "off" addrs).2 = true →
      (ZUps_off env addrs baud).2 = true
      ∧ ∀ c ∈ (ZUps_off env addrs baud).1, isCleanupCmd c = false)
    ∧ ((ZUps_VerifyPower env "off" addrs).2 = false →
      (ZUps_off env addrs baud).1 =
        ZUps_SetPower addrs "off" ++ (ZUps_VerifyPower env "off" addrs).1
          ++ ZUps_CleanUp addrs
      ∧ (ZUps_off env addrs baud).2 = false) := by
  constructor
  · intro hf
    have htr : (ZUps_off env addrs baud).1 =
        ZUps_SetPower addrs "off" ++ (ZUps_VerifyPower env "off" addrs).1 ∧
        (ZUps_off env addrs baud).2 = true := by
      simp [ZUps_off, hv, hb, hf]
    refine ⟨htr.2, ?_⟩
    intro c hc
    rw [htr.1] at hc
    rcases List.mem_append.mp hc with hc | hc
    · exact setPower_no_cleanup addrs "off" c hc
    · exact verifyPower_no_cleanup env "off" addrs c hc
  · intro hf
    constructor <;> simp [ZUps_off, hv, hb, hf]

/-- Phase ordering inside one `powerBlock`, for every payload: the first
`:UVP`/`:OVP` writes (the UVP-minimum and OVP-maximum) precede the `:VOL`,
every `:CUR` and the `:OUT1;` write, `:VOL` precedes `:OUT1;`, and
`:OUT1;` precedes the last `:UVP`/`:OVP` writes (the restored protection
limits). -/
theorem powerBlock_phase_order (adrS : String) (fldOn : Bool)
    (uvpMin ovpMax : String) (raiseEarly : Bool)
    (volS curS ovpS uvpS : String) :
    (powerBlock adrS fldOn uvpMin ovpMax raiseEarly volS curS ovpS
        uvpS).findIdx isUVPset <
      (powerBlock adrS fldOn uvpMin ovpMax raiseEarly volS curS ovpS
        uvpS).findIdx isVOLset
    ∧ (powerBlock adrS fldOn uvpMin ovpMax raiseEarly volS curS ovpS
        uvpS).findIdx isOVPset <
      (powerBlock adrS fldOn uvpMin ovpMax raiseEarly volS curS ovpS
        uvpS).findIdx isVOLset
    ∧ (powerBlock adrS fldOn uvpMin ovpMax raiseEarly volS curS ovpS
        uvpS).findIdx isUVPset <
      (powerBlock adrS fldOn uvpMin ovpMax raiseEarly volS curS ovpS
        uvpS).findIdx isCURset
    ∧ (powerBlock adrS fldOn uvpMin ovpMax raiseEarly volS curS ovpS
        uvpS).findIdx isOVPset <
      (powerBlock adrS fldOn uvpMin ovpMax raiseEarly volS curS ovpS
        uvpS).findIdx isCURset
    ∧ (powerBlock adrS fldOn uvpMin ovpMax raiseEarly volS curS ovpS
        uvpS).findIdx isUVPset <
      (powerBlock adrS fldOn uvpMin ovpMax raiseEarly volS curS ovpS
        uvpS).findIdx isOUT1
    ∧ (powerBlock adrS fldOn uvpMin ovpMax raiseEarly volS curS ovpS
        uvpS).findIdx isOVPset <
      (powerBlock adrS fldOn uvpMin ovpMax raiseEarly volS curS ovpS
        uvpS).findIdx isOUT1
    ∧ (powerBlock adrS fldOn uvpMin ovpMax raiseEarly volS curS ovpS
        uvpS).findIdx isVOLset <
      (powerBlock adrS fldOn uvpMin ovpMax raiseEarly volS curS ovpS
        uvpS).findIdx isOUT1
    ∧ (powerBlock adrS fldOn uvpMin ovpMax raiseEarly volS curS ovpS
        uvpS).reverse.findIdx isUVPset <
      (powerBlock adrS fldOn uvpMin ovpMax raiseEarly volS curS ovpS
        uvpS).reverse.findIdx isOUT1
    ∧ (powerBlock adrS fldOn uvpMin ovpMax raiseEarly volS curS ovpS
        uvpS).reverse.findIdx isOVPset <
      (powerBlock adrS fldOn uvpMin ovpMax raiseEarly volS curS ovpS
        uvpS).reverse.findIdx isOUT1 := by
  cases fldOn <;> cases raiseEarly <;>
    simp [powerBlock, List.findIdx_cons, isUVPset, isOVPset, isVOLset,
      isCURset, isOUT1]

/-- C1, counterexample: on a two-entry plan (two `36V-6A` devices at
addresses 1 and 2), the emitted sequence is the concatenation of the two
per-device blocks: the `:OUT1;` for device 1 sits at index 13, while the
UVP-minimum command `:UVP00.0;` for device 2 only appears at index 26
(index 9 of the second block).  So it is false that the UVP-minimum and
OVP-maximum commands of every device precede every `:VOL`/`:CUR`/`:OUT1;`
command, and false that `:OUT1;` for every device precedes the restored
UVP/OVP of every device (the restored `:UVP03.0;` of device 1 is at index
16, before index 26). -/
theorem C1_counterexample :
    ZUps_PowerVAs ⟨fun _ => "36V-6A", fun _ => 6⟩
        [⟨1, 3.3, 1, "FLD_off"⟩, ⟨2, 5, 1, "FLD_off"⟩] =
      powerDevice ⟨fun _ => "36V-6A", fun _ => 6⟩ ⟨1, 3.3, 1, "FLD_off"⟩ ++
        powerDevice ⟨fun _ => "36V-6A", fun _ => 6⟩ ⟨2, 5, 1, "FLD_off"⟩
    ∧ (ZUps_PowerVAs ⟨fun _ => "36V-6A", fun _ => 6⟩
        [⟨1, 3.3, 1, "FLD_off"⟩, ⟨2, 5, 1, "FLD_off"⟩]).get? 13 =
      some (.OUT 1)
    ∧ (ZUps_PowerVAs ⟨fun _ => "36V-6A", fun _ => 6⟩
        [⟨1, 3.3, 1, "FLD_off"⟩, ⟨2, 5, 1, "FLD_off"⟩]).get? 26 =
      some (.UVP "00.0")
    ∧ (ZUps_PowerVAs ⟨fun _ => "36V-6A", fun _ => 6⟩
        [⟨1, 3.3, 1, "FLD_off"⟩, ⟨2, 5, 1, "FLD_off"⟩]).get? 16 =
      some (.UVP "03.0")
    ∧ (powerDevice ⟨fun _ => "36V-6A", fun _ => 6⟩
        ⟨1, 3.3, 1, "FLD_off"⟩).length = 17
    ∧ (powerDevice ⟨fun _ => "36V-6A", fun _ => 6⟩
        ⟨2, 5, 1, "FLD_off"⟩).get? 9 = some (.UVP "00.0") := by
  decide

/-- C1, amended: `_ZUps_PowerVAs` processes the plan one device at a time
(the trace is the concatenation of the per-device blocks in plan order),
and the phase ordering holds within each device's block, not across the
plan: for every device, its UVP-minimum and OVP-maximum writes precede
its own `:VOL`, `:CUR` and `:OUT1;` writes, its `:VOL` precedes its
`:OUT1;`, and its `:OUT1;` precedes its restored (final) UVP and OVP
writes. -/
theorem C1_per_device_phases :
    (∀ env zups, ZUps_PowerVAs env zups =
      (zups.map (powerDevice env)).flatten)
    ∧ (∀ env z,
        (powerDevice env z).findIdx isUVPset <
          (powerDevice env z).findIdx isVOLset
        ∧ (powerDevice env z).findIdx isOVPset <
          (powerDevice env z).findIdx isVOLset
        ∧ (powerDevice env z).findIdx isUVPset <
          (powerDevice env z).findIdx isCURset
        ∧ (powerDevice env z).findIdx isOVPset <
          (powerDevice env z).findIdx isCURset
        ∧ (powerDevice env z).findIdx isUVPset <
          (powerDevice env z).findIdx isOUT1
        ∧ (powerDevice env z).findIdx isOVPset <
          (powerDevice env z).findIdx isOUT1
        ∧ (powerDevice env z).findIdx isVOLset <
          (powerDevice env z).findIdx isOUT1
        ∧ (powerDevice env z).reverse.findIdx isUVPset <
          (powerDevice env z).reverse.findIdx isOUT1
        ∧ (powerDevice env z).reverse.findIdx isOVPset <
          (powerDevice env z).reverse.findIdx isOUT1) := by
  constructor
  · intro env zups
    induction zups with
    | nil => simp [ZUps_PowerVAs]
    | cons z rest ih => simp [ZUps_PowerVAs, ih]
  · intro env z
    exact powerBlock_phase_order _ _ _ _ _ _ _ _ _

/-- Witness for C7 at the counterexample input. -/
theorem C7_witness :
    (ZUps_off ⟨fun a => if a = 2 then "OS00010000" else "OS00000000"⟩
      [1, 2] 9600).2 = true
    ∧ ∀ c ∈ (ZUps_off
        ⟨fun a => if a = 2 then "OS00010000" else "OS00000000"⟩
        [1, 2] 9600).1, isCleanupCmd c = false :=
  (C7_no_cleanup_on_failed_verify
    ⟨fun a => if a = 2 then "OS00010000" else "OS00000000"⟩
    [1, 2] 9600 (by decide) (by decide)).1 (by decide)

/-- C4: along any sequence of commands issued through `Zup` objects
sharing one serial port (none of which is itself a literal `:ADR`
command, as none of the class methods sends one), an addressing command
is emitted at a call exactly when the port's listening-addresses entry
differs from the commanded address; when emitted it comes wrapped in the
pre- and post-address settle delays; consecutive commands to the same
address emit no addressing command; and after every call the port's entry
equals that call's address. -/
theorem C4_addressing (st : Option ℕ) (calls : List (ℕ × PyCmd))
    (h : ∀ p ∈ calls, isADRc p.2 = false) : AdrCorrect st calls := by
  induction calls generalizing st with
  | nil => trivial
  | cons pc rest ih =>
    obtain ⟨a, c⟩ := pc
    have hc : isADRc c = false := h (a, c) (by simp)
    have hrest : ∀ p ∈ rest, isADRc p.2 = false :=
      fun p hp => h p (by simp [hp])
    by_cases hst : st = some a
    · subst hst
      refine ⟨?_, ?_, ?_, ?_, ih (some a) hrest⟩ <;>
        simp [write_command, evAdr, hc]
    · refine ⟨?_, ?_, ?_, ?_, ih (some a) hrest⟩ <;>
        simp [write_command, hst, evAdr, isADRc]

/-- Witness for C4: a fresh port, two consecutive commands to address 1
and then one to address 2. -/
theorem C4_witness :
    AdrCorrect none [(1, PyCmd.DCL), (1, PyCmd.VOL "03.30"),
      (2, PyCmd.DCL)] :=
  C4_addressing none
    [(1, PyCmd.DCL), (1, PyCmd.VOL "03.30"), (2, PyCmd.DCL)] (by decide)

/-- A sleep of at least 10 ms can always be prepended to a trace that
satisfies the gap discipline. -/
theorem gapsOK_sleep_cons (d : ℕ) (tr : List Ev) (hd : 10 ≤ d)
    (h : gapsOK tr = true) : gapsOK (Ev.sleep d :: tr) = true := by
  match tr with
  | [] => rfl
  | .sleep d' :: rest => simpa [gapsOK] using h
  | .write c :: rest => simp [gapsOK, h, hd]

/-- Gap discipline of the traces of `Zup._write_command` call
sequences. -/
theorem zup_gapsOK (st : Option ℕ) (calls : List (ℕ × PyCmd))
    (h : ∀ p ∈ calls, isADRc p.2 = false) :
    gapsOK (zupTrace st calls) = true := by
  induction calls generalizing st with
  | nil => rfl
  | cons pc rest ih =>
    obtain ⟨a, c⟩ := pc
    have hc : isADRc c = false := h (a, c) (by simp)
    have hrest : ∀ p ∈ rest, isADRc p.2 = false :=
      fun p hp => h p (by simp [hp])
    by_cases hst : st = some a
    · subst hst
      simp [zupTrace, write_command, gapsOK, hc]
      first
      | exact gapsOK_sleep_cons 20 _ (by norm_num) (ih (some a) hrest)
      | exact ⟨hc, gapsOK_sleep_cons 20 _ (by norm_num) (ih (some a) hrest)⟩
    · simp [zupTrace, write_command, hst, gapsOK, hc, isADRc]
      first
      | exact gapsOK_sleep_cons 20 _ (by norm_num) (ih (some a) hrest)
      | exact ⟨hc, gapsOK_sleep_cons 20 _ (by norm_num) (ih (some a) hrest)⟩

/-- A `Zup._write_command` trace never begins with an addressing write. -/
theorem zup_headOK (st : Option ℕ) (calls : List (ℕ × PyCmd))
    (h : ∀ p ∈ calls, isADRc p.2 = false) :
    headAdrW (zupTrace st calls) = false := by
  match calls with
  | [] => rfl
  | (a, c) :: rest =>
    have hc : isADRc c = false := h (a, c) (by simp)
    by_cases hst : st = some a
    · subst hst
      simp [zupTrace, write_command, headAdrW, hc]
    · simp [zupTrace, write_command, hst, headAdrW, isADRc]

/-- Gap discipline of the traces of `_ZUp_WriteCommand` call
sequences. -/
theorem old_gapsOK (cmds : List PyCmd) :
    gapsOK (oldTrace cmds) = true := by
  induction cmds with
  | nil => rfl
  | cons c rest ih =>
    by_cases hA : isADRc c = true
    · simp [oldTrace, ZUp_WriteCommand, hA, gapsOK]
      exact gapsOK_sleep_cons 35 _ (by norm_num)
        (by simpa [oldTrace] using ih)
    · simp only [Bool.not_eq_true] at hA
      simp [oldTrace, ZUp_WriteCommand, hA, gapsOK]
      exact gapsOK_sleep_cons 20 _ (by norm_num)
        (by simpa [oldTrace] using ih)

/-- A `_ZUp_WriteCommand` trace never begins with an addressing write
(an addressing command begins with its 15 ms pre-delay). -/
theorem old_headOK (cmds : List PyCmd) :
    headAdrW (oldTrace cmds) = false := by
  match cmds with
  | [] => rfl
  | c :: rest =>
    by_cases hA : isADRc c = true
    · simp [oldTrace, ZUp_WriteCommand, hA, headAdrW]
    · simp only [Bool.not_eq_true] at hA
      simp [oldTrace, ZUp_WriteCommand, hA, headAdrW]

/-- C9: in every event trace either write layer emits (the new `Zup`
class layer for any call sequence that does not pass a literal `:ADR`
command, and the old `_ZUp_WriteCommand` layer for any command
sequence), every write is followed by a sleep of at least 15 ms before
the next write, and every addressing write is preceded by a sleep of at
least 10 ms and followed by a sleep of at least 30 ms. -/
theorem C9_settle_delays :
    (∀ (st : Option ℕ) (calls : List (ℕ × PyCmd)),
      (∀ p ∈ calls, isADRc p.2 = false) →
      delaysOK (zupTrace st calls) = true)
    ∧ (∀ cmds : List PyCmd, delaysOK (oldTrace cmds) = true) := by
  constructor
  · intro st calls h
    simp [delaysOK, zup_gapsOK st calls h, zup_headOK st calls h]
  · intro cmds
    simp [delaysOK, old_gapsOK cmds, old_headOK cmds]

/-- Witness for C9: a fresh port with commands to two addresses through
the class layer, and an old-layer sequence with explicit addressing. -/
theorem C9_witness :
    delaysOK (zupTrace none [(1, PyCmd.VOL "03.30"), (1, PyCmd.OUT 1),
      (2, PyCmd.OUT 1)]) = true
    ∧ delaysOK (oldTrace [PyCmd.ADR "01", PyCmd.OUT 1, PyCmd.ADR "02",
      PyCmd.OUT 1]) = true :=
  ⟨C9_settle_delays.1 none [(1, PyCmd.VOL "03.30"), (1, PyCmd.OUT 1),
      (2, PyCmd.OUT 1)] (by decide),
    C9_settle_delays.2 [PyCmd.ADR "01", PyCmd.OUT 1, PyCmd.ADR "02",
      PyCmd.OUT 1]⟩

end ZupLib
